import Mathlib

/-!
Verification of `src/backend/langflow/api/chat_manager.py`: the chat
history store (`ChatHistory`), the session registry (`ChatManager`'s
`active_connections`, `connect`, `disconnect`), the observer callbacks
(`on_chat_history_update`, `update`) and the message lifecycle driver
(`process_message`, `handle_websocket`), shallowly embedded in Lean.

External collaborators (the langchain execution graph, the websocket
transport, pandas/PIL transcoding of artifact payloads) are abstracted:
the graph run is a parameter returning either `(result, intermediate_steps)`
or an exception, a connection is represented by the presence of its
session id in the registry, and the artifact payload of a file event is
left out (its transcoding happens in external libraries).
-/

namespace Langflow

/-- Modelled from the spec: the event schema (`ChatMessage` / `ChatResponse` /
`FileResponse` from `langflow/api/schemas.py`, which is not part of the
fragment).  The spec's wire shape is
`{message: string|null, type: enum{start,stream,end,file,<user>},
intermediate_steps: string, is_bot: bool}`; a plain user `ChatMessage` is
not bot-originated and carries a user-class type tag distinct from the
control tags, while `ChatResponse` / `FileResponse` events are
bot-originated. -/
structure ChatMessage where
  message : Option String
  type : String
  intermediate_steps : String
  is_bot : Bool
deriving DecidableEq, Repr

/-- Modelled from the spec: a plain user message (`ChatMessage(message=...)`):
not bot-originated, user-class type tag. -/
def userChatMessage (text : String) : ChatMessage :=
  { message := some text, type := "human", intermediate_steps := "", is_bot := false }

/-- `ChatResponse(message=None, type="start", intermediate_steps="")`, the
StreamStart event appended by `process_message`; bot-originated per the spec's
wire shape. -/
def startResponse : ChatMessage :=
  { message := none, type := "start", intermediate_steps := "", is_bot := true }

/-- The FileArtifact event built by `ChatManager.update` from the cache's last
record (`FileResponse(message=None, type="file", ...)`); the artifact payload
itself is abstracted away. -/
def fileResponse : ChatMessage :=
  { message := none, type := "file", intermediate_steps := "", is_bot := true }

/-- `ChatHistory.history`: a `defaultdict(list)` from client id to its ordered
event log, embedded as a total function (absent keys map to `[]`). -/
def ChatHistory := String → List ChatMessage

/-- The freshly constructed, empty history store. -/
def ChatHistory.init : ChatHistory := fun _ => []

/-- `ChatHistory.add_message`: append one message to a client's log (the
`notify()` side effect is modelled by the callers invoking the observer
functions explicitly). -/
def ChatHistory.add_message (h : ChatHistory) (client_id : String)
    (message : ChatMessage) : ChatHistory :=
  fun c => if c = client_id then h c ++ [message] else h c

/-- The membership test `msg.type not in ["start", "stream"]` used by the
history filter. -/
def keptByFilter (m : ChatMessage) : Bool :=
  ¬ (m.type = "start" ∨ m.type = "stream")

/-- `ChatHistory.get_history`: the ordered log for a client; with
`filter=True` the `start`/`stream` control events are dropped. -/
def ChatHistory.get_history (h : ChatHistory) (client_id : String)
    (filter : Bool) : List ChatMessage :=
  if filter then (h client_id).filter keptByFilter
  else h client_id

/-- `ChatManager` state: the registry of live connections (a dict keyed by
client id; the websocket handle itself is external, so only the key set is
kept) together with the owned history store. -/
structure ChatManager where
  active_connections : String → Bool
  chat_history : ChatHistory

/-- The freshly constructed manager: no connections, empty history. -/
def ChatManager.init : ChatManager :=
  { active_connections := fun _ => false, chat_history := ChatHistory.init }

/-- `ChatManager.connect`: register the connection under its client id
(a second connect for the same id replaces the first entry). -/
def ChatManager.connect (cm : ChatManager) (client_id : String) : ChatManager :=
  { cm with active_connections :=
      fun c => if c = client_id then true else cm.active_connections c }

/-- `ChatManager.disconnect`: `del self.active_connections[client_id]` —
removes the entry, raising `KeyError` when the id is absent. -/
def ChatManager.disconnect (cm : ChatManager) (client_id : String) :
    Except String ChatManager :=
  if cm.active_connections client_id then
    Except.ok { cm with active_connections :=
      fun c => if c = client_id then false else cm.active_connections c }
  else Except.error "KeyError"

/-- `ChatManager.on_chat_history_update`: the observer attached to the
history store.  It reads the active-session id from
`cache_manager.current_client_id`; if that session is connected it takes the
LAST element of that session's unfiltered history (an `IndexError` when the
history is empty, modelled as `Except.error`) and, when the event is
bot-originated, schedules a single `send_json` of it to that session's
connection.  The result is the dispatched `(client_id, event)` pair, if any. -/
def ChatManager.on_chat_history_update (cm : ChatManager)
    (current_client_id : String) : Except String (Option (String × ChatMessage)) :=
  if cm.active_connections current_client_id then
    match (cm.chat_history.get_history current_client_id false).getLast? with
    | none => Except.error "IndexError"
    | some chat_response =>
        if chat_response.is_bot then
          Except.ok (some (current_client_id, chat_response))
        else Except.ok none
  else Except.ok none

/-- `ChatManager.update`: the observer attached to the artifact cache.  When
the active-session id is connected it builds a `FileResponse` event from the
cache's last record and appends it to that session's history; otherwise it
does nothing. -/
def ChatManager.update (cm : ChatManager) (current_client_id : String) :
    ChatManager :=
  if cm.active_connections current_client_id then
    { cm with chat_history :=
        cm.chat_history.add_message current_client_id fileResponse }
  else cm

/-- Python's `x or ""` on an optional string: `None` (and the already-empty
string) becomes `""`. -/
def orEmpty (s : Option String) : String :=
  match s with
  | none => ""
  | some t => t

/-- The `ChatResponse(message=result or "", intermediate_steps=
intermediate_steps.strip(), type="end")` FinalAnswer event built by
`process_message` on success. -/
def endResponse (result intermediate_steps : Option String) : ChatMessage :=
  { message := some (orEmpty result), type := "end",
    intermediate_steps := (orEmpty intermediate_steps).trim, is_bot := true }

/-- The outcome of one `process_message` call: the post-state, the
`is_first_message` value it computed, and, on the error path, the exception
that propagates to the caller (state changes made before the raise are
kept, matching the in-place mutation of the Python object). -/
inductive ProcResult where
  | ok (cm : ChatManager) (is_first_message : Bool)
  | err (cm : ChatManager) (is_first_message : Bool) (e : String)

/-- The post-state of a `ProcResult`, on either path. -/
def ProcResult.state : ProcResult → ChatManager
  | .ok cm _ => cm
  | .err cm _ _ => cm

/-- The behaviour of the external collaborator run (`process_graph`):
given `is_first_message`, either `(result, intermediate_steps)` or a raised
exception.  Streaming side effects go straight to the websocket and never
touch the history, so they are not part of the outcome. -/
def GraphRun := Bool → Except String (Option String × Option String)

/-- `ChatManager.process_message`, step by step from the source:
1. pop the message text and append the `ChatMessage` (UserMessage) event;
2. append the `start` `ChatResponse` (StreamStart) event;
3. compute `is_first_message = len(get_history(client_id)) == 0` on the
   filtered history as it stands NOW (after the two appends);
4. look up `self.active_connections[client_id]` (a `KeyError` escapes the
   `try` and propagates when the id is not connected) and run the graph;
5. on a graph exception, log and re-raise;
6. on success, append the `end` `ChatResponse` (FinalAnswer) event. -/
def ChatManager.process_message (cm : ChatManager) (client_id : String)
    (message_text : String) (graph : GraphRun) : ProcResult :=
  let chat_message := userChatMessage message_text
  let h1 := cm.chat_history.add_message client_id chat_message
  let h2 := h1.add_message client_id startResponse
  let cm2 : ChatManager := { cm with chat_history := h2 }
  let is_first_message := (h2.get_history client_id true).length = 0
  if cm.active_connections client_id then
    match graph is_first_message with
    | Except.error e => ProcResult.err cm2 is_first_message e
    | Except.ok (result, intermediate_steps) =>
        ProcResult.ok
          { cm2 with chat_history :=
              h2.add_message client_id (endResponse result intermediate_steps) }
          is_first_message
  else ProcResult.err cm2 is_first_message "KeyError"

/-- One inbound request of a session: the payload's message text and the
collaborator behaviour for that turn. -/
structure Request where
  message_text : String
  graph : GraphRun

/-- The receive/process loop body of `handle_websocket`: process inbound
requests in order; the first exception breaks out of the loop carrying the
error (to the `finally` block). -/
def processLoop (cm : ChatManager) (client_id : String) :
    List Request → ChatManager × Option String
  | [] => (cm, none)
  | r :: rest =>
    match cm.process_message client_id r.message_text r.graph with
    | .ok cm2 _ => processLoop cm2 client_id rest
    | .err cm2 _ e => (cm2, some e)

/-- The observable trace of one `handle_websocket` session: the full filtered
history sent once right after `connect`, the number of `disconnect` calls the
driver made, the error (if any) that broke the loop, and the final state. -/
structure SessionTrace where
  sent_at_connect : List ChatMessage
  disconnect_calls : Nat
  disconnect_result : Except String ChatManager
  loop_error : Option String

/-- `ChatManager.handle_websocket`: connect, send the client its full
filtered history once, then loop over inbound payloads calling
`process_message` under the active-session scope; whatever happens, the
`finally` block calls `disconnect` exactly once. -/
def ChatManager.handle_websocket (cm : ChatManager) (client_id : String)
    (requests : List Request) : SessionTrace :=
  let cm1 := cm.connect client_id
  let sent := cm1.chat_history.get_history client_id true
  let (cm2, e) := processLoop cm1 client_id requests
  { sent_at_connect := sent
    disconnect_calls := 1
    disconnect_result := cm2.disconnect client_id
    loop_error := e }

/-- The `is_first_message` value a `ProcResult` carries. -/
def ProcResult.is_first : ProcResult → Bool
  | .ok _ b => b
  | .err _ b _ => b

/-- The exception (if any) a `ProcResult` propagates to the caller. -/
def ProcResult.exc : ProcResult → Option String
  | .ok _ _ => none
  | .err _ _ e => some e

/-- The events one successful turn appends, in order: UserMessage,
StreamStart, FinalAnswer. -/
def turnBlock (text : String) (result intermediate_steps : Option String) :
    List ChatMessage :=
  [userChatMessage text, startResponse, endResponse result intermediate_steps]

/-- One inbound request whose collaborator run succeeds, returning
`(result, intermediate_steps)`. -/
structure OkRequest where
  message_text : String
  result : Option String
  intermediate_steps : Option String

/-- View an always-succeeding request as a generic `Request`. -/
def OkRequest.toRequest (r : OkRequest) : Request :=
  { message_text := r.message_text
    graph := fun _ => Except.ok (r.result, r.intermediate_steps) }

/-- The per-turn event block of an `OkRequest`. -/
def OkRequest.block (r : OkRequest) : List ChatMessage :=
  turnBlock r.message_text r.result r.intermediate_steps

lemma add_message_apply_same (h : ChatHistory) (c : String) (m : ChatMessage) :
    h.add_message c m c = h c ++ [m] := by
  simp [ChatHistory.add_message]

lemma add_message_apply_ne (h : ChatHistory) (c c' : String) (m : ChatMessage)
    (hne : c' ≠ c) : h.add_message c m c' = h c' := by
  simp [ChatHistory.add_message, hne]

lemma get_history_false (h : ChatHistory) (c : String) :
    h.get_history c false = h c := rfl

lemma get_history_true (h : ChatHistory) (c : String) :
    h.get_history c true = (h c).filter keptByFilter := rfl

lemma keptByFilter_user (text : String) :
    keptByFilter (userChatMessage text) = true := rfl

lemma keptByFilter_start : keptByFilter startResponse = false := by decide

lemma keptByFilter_end (result intermediate_steps : Option String) :
    keptByFilter (endResponse result intermediate_steps) = true := rfl

lemma keptByFilter_file : keptByFilter fileResponse = true := by decide

/-- Appending two messages to the same session in a row. -/
lemma add_two (h : ChatHistory) (c : String) (m1 m2 : ChatMessage) :
    (h.add_message c m1).add_message c m2
      = fun d => if d = c then h d ++ [m1, m2] else h d := by
  funext d
  by_cases hd : d = c <;> simp [ChatHistory.add_message, hd]

/-- Appending three messages to the same session in a row. -/
lemma add_three (h : ChatHistory) (c : String) (m1 m2 m3 : ChatMessage) :
    ((h.add_message c m1).add_message c m2).add_message c m3
      = fun d => if d = c then h d ++ [m1, m2, m3] else h d := by
  funext d
  by_cases hd : d = c <;> simp [ChatHistory.add_message, hd]

/-- The `is_first_message` test `len(get_history(client_id)) == 0`, taken
after the UserMessage and StreamStart appends, always fails: the just-added
UserMessage survives the filter, so the filtered history is never empty. -/
lemma flag_false (h : ChatHistory) (c text : String) :
    decide ((((h.add_message c (userChatMessage text)).add_message c
        startResponse).get_history c true).length = 0) = false := by
  simp [get_history_true, add_two, List.filter_append, keptByFilter_user,
    keptByFilter_start, List.filter]


/-- Characterization of `process_message` on a connected session when the
collaborator run succeeds: the three lifecycle events are appended in order
and the computed `is_first_message` is `false`. -/
lemma process_message_okGraph (cm : ChatManager) (c text : String)
    (result intermediate_steps : Option String)
    (hconn : cm.active_connections c = true) :
    cm.process_message c text (fun _ => Except.ok (result, intermediate_steps)) =
      ProcResult.ok
        { cm with chat_history := fun d =>
            if d = c then cm.chat_history d ++ turnBlock text result intermediate_steps
            else cm.chat_history d }
        false := by
  simp only [ChatManager.process_message, hconn, if_true, flag_false, add_three,
    turnBlock]

/-- Characterization of `process_message` on a connected session when the
collaborator run raises: only the UserMessage and StreamStart events were
appended, and the exception propagates. -/
lemma process_message_errGraph (cm : ChatManager) (c text : String)
    (g : GraphRun) (e : String) (hconn : cm.active_connections c = true)
    (hg : g false = Except.error e) :
    cm.process_message c text g =
      ProcResult.err
        { cm with chat_history := fun d =>
            if d = c then cm.chat_history d ++ [userChatMessage text, startResponse]
            else cm.chat_history d }
        false e := by
  simp only [ChatManager.process_message, hconn, if_true, flag_false]
  simp only [hg, add_two]

/-- `process_message` never touches the connection registry. -/
lemma process_message_active (cm : ChatManager) (c text : String) (g : GraphRun) :
    (cm.process_message c text g).state.active_connections
      = cm.active_connections := by
  unfold ChatManager.process_message
  dsimp only
  split
  · split <;> rfl
  · rfl

/-- The receive/process loop never touches the connection registry. -/
lemma processLoop_active (c : String) (rs : List Request) :
    ∀ cm : ChatManager,
      (processLoop cm c rs).1.active_connections = cm.active_connections := by
  induction rs with
  | nil => intro cm; rfl
  | cons r rest ih =>
    intro cm
    have hact := process_message_active cm c r.message_text r.graph
    simp only [processLoop]
    cases hp : cm.process_message c r.message_text r.graph with
    | ok cm2 b =>
      rw [hp] at hact
      simpa [ih cm2] using hact
    | err cm2 b e =>
      rw [hp] at hact
      simpa using hact

/-- Running a batch of succeeding requests appends one three-event turn
block per request and raises nothing. -/
lemma processLoop_okRequests (c : String) (reqs : List OkRequest) :
    ∀ cm : ChatManager, cm.active_connections c = true →
      (processLoop cm c (reqs.map OkRequest.toRequest)).1.chat_history c
          = cm.chat_history c ++ (reqs.map OkRequest.block).flatten ∧
        (processLoop cm c (reqs.map OkRequest.toRequest)).2 = none := by
  induction reqs with
  | nil => intro cm _; simp [processLoop]
  | cons r rest ih =>
    intro cm hconn
    simp only [List.map_cons, processLoop, OkRequest.toRequest,
      process_message_okGraph cm c r.message_text r.result r.intermediate_steps hconn]
    have hx := ih
      { cm with chat_history := fun d =>
          if d = c then cm.chat_history d ++ turnBlock r.message_text r.result r.intermediate_steps
          else cm.chat_history d }
      hconn
    simp only at hx
    simp [hx.1, hx.2, OkRequest.block, List.flatten_cons]

/-- A whole sequence of appends (any interleaving of sessions), applied in
order to a history store. -/
def ChatHistory.addAll (h : ChatHistory) : List (String × ChatMessage) → ChatHistory
  | [] => h
  | p :: rest => (h.add_message p.1 p.2).addAll rest

/-- C3: for every sequence of appends to the store, the filtered read of one
session contains no `start`/`stream` control events, is an order-preserving
subsequence of the unfiltered read, and retains every non-control event. -/
theorem filtered_read_drops_control_keeps_order
    (appends : List (String × ChatMessage)) (c : String) :
    ((ChatHistory.init.addAll appends).get_history c true).Sublist
        ((ChatHistory.init.addAll appends).get_history c false) ∧
    (∀ m, m ∈ (ChatHistory.init.addAll appends).get_history c true →
        m.type ≠ "start" ∧ m.type ≠ "stream") ∧
    (∀ m, m ∈ (ChatHistory.init.addAll appends).get_history c false →
        m.type ≠ "start" → m.type ≠ "stream" →
        m ∈ (ChatHistory.init.addAll appends).get_history c true) := by
  refine ⟨?_, ?_, ?_⟩
  · rw [get_history_true, get_history_false]
    exact List.filter_sublist _
  · intro m hm
    rw [get_history_true, List.mem_filter] at hm
    have hk := hm.2
    simp only [keptByFilter, decide_eq_true_eq] at hk
    push_neg at hk
    exact hk
  · intro m hm h1 h2
    rw [get_history_false] at hm
    rw [get_history_true, List.mem_filter]
    refine ⟨hm, ?_⟩
    simp only [keptByFilter, decide_eq_true_eq]
    push_neg
    exact ⟨h1, h2⟩

/-- Witness for C3 at a concrete append sequence: the user message survives
the filtered read while the control event is dropped around it. -/
theorem filtered_read_drops_control_keeps_order_witness :
    userChatMessage "hi" ∈
      (ChatHistory.init.addAll
        [("A", userChatMessage "hi"), ("A", startResponse)]).get_history "A" true :=
  (filtered_read_drops_control_keeps_order
      [("A", userChatMessage "hi"), ("A", startResponse)] "A").2.2
    (userChatMessage "hi") (by decide) (by decide) (by decide)

/-- C6: a history-store notification or an artifact-cache notification whose
active-session id is not connected neither raises nor dispatches: the history
observer returns cleanly with no send, and the cache observer leaves the
state untouched. -/
theorem disconnected_notification_noop (cm : ChatManager) (c : String)
    (hdis : cm.active_connections c = false) :
    cm.on_chat_history_update c = Except.ok none ∧ cm.update c = cm := by
  constructor
  · simp [ChatManager.on_chat_history_update, hdis]
  · simp [ChatManager.update, hdis]

/-- Witness for C6 on the fresh manager, whose sessions are all
unconnected. -/
theorem disconnected_notification_noop_witness :
    ChatManager.init.on_chat_history_update "A" = Except.ok none ∧
      ChatManager.init.update "A" = ChatManager.init :=
  disconnected_notification_noop ChatManager.init "A" rfl

/-- C7: `disconnect` removes the session's registry entry; a second call on
the already-removed id fails with `KeyError` instead of being a no-op; and
the websocket driver performs exactly one `disconnect` in its cleanup block,
which always succeeds because nothing else removed the entry. -/
theorem disconnect_once_semantics (cm : ChatManager) (c : String)
    (reqs : List Request) (hconn : cm.active_connections c = true) :
    (∃ cm', cm.disconnect c = Except.ok cm' ∧
        cm'.active_connections c = false ∧
        cm'.disconnect c = Except.error "KeyError") ∧
    (cm.handle_websocket c reqs).disconnect_calls = 1 ∧
    (∃ cm'', (cm.handle_websocket c reqs).disconnect_result = Except.ok cm'') := by
  refine ⟨?_, rfl, ?_⟩
  · refine ⟨{ cm with active_connections :=
        fun d => if d = c then false else cm.active_connections d }, ?_, ?_, ?_⟩
    · simp [ChatManager.disconnect, hconn]
    · simp
    · simp [ChatManager.disconnect]
  · have hact : (processLoop (cm.connect c) c reqs).1.active_connections c = true := by
      rw [processLoop_active]
      simp [ChatManager.connect]
    simp only [ChatManager.handle_websocket, ChatManager.disconnect, hact, if_true]
    exact ⟨_, rfl⟩

/-- Witness for C7 on a freshly connected session with no inbound
requests. -/
theorem disconnect_once_semantics_witness :
    (∃ cm', (ChatManager.init.connect "A").disconnect "A" = Except.ok cm' ∧
        cm'.active_connections "A" = false ∧
        cm'.disconnect "A" = Except.error "KeyError") ∧
    ((ChatManager.init.connect "A").handle_websocket "A" []).disconnect_calls = 1 ∧
    (∃ cm'', ((ChatManager.init.connect "A").handle_websocket "A" []).disconnect_result
        = Except.ok cm'') :=
  disconnect_once_semantics (ChatManager.init.connect "A") "A" [] (by decide)

/-- C1 (divergence witnessed): the source computes `is_first_message` AFTER
appending the UserMessage event, which survives the history filter, so the
flag is `false` on every request — including the very first request of a
fresh session, whose filtered history WAS empty prior to the appends. -/
theorem is_first_message_always_false :
    (∀ (cm : ChatManager) (c text : String) (g : GraphRun),
        (cm.process_message c text g).is_first = false) ∧
    (ChatManager.init.connect "A").chat_history.get_history "A" true = [] ∧
    ((ChatManager.init.connect "A").process_message "A" "hi"
        (fun _ => Except.ok (some "answer", some " steps "))).is_first = false := by
  have key : ∀ (cm : ChatManager) (c text : String) (g : GraphRun),
      (cm.process_message c text g).is_first = false := by
    intro cm c text g
    unfold ChatManager.process_message
    dsimp only
    split
    · split <;> exact flag_false _ _ _
    · exact flag_false _ _ _
  exact ⟨key, rfl, key _ _ _ _⟩

/-- C2 counterexample: a fresh session whose collaborator raises ends the
turn with NO `end`-typed event in its history — the exception propagates
after only the UserMessage and StreamStart events were appended, so the
claimed end-of-turn event never appears. -/
theorem failure_no_end_event_counterexample :
    ((ChatManager.init.connect "A").process_message "A" "hi"
        (fun _ => Except.error "boom")).exc = some "boom" ∧
    (((ChatManager.init.connect "A").process_message "A" "hi"
        (fun _ => Except.error "boom")).state.chat_history "A")
        = [userChatMessage "hi", startResponse] ∧
    ((((ChatManager.init.connect "A").process_message "A" "hi"
        (fun _ => Except.error "boom")).state.chat_history "A").filter
        (fun m => m.type = "end")) = [] := by
  refine ⟨by decide, by decide, by decide⟩

/-- C2 amended: on collaborator failure the exception propagates to the
caller and the turn appended exactly the UserMessage and StreamStart events —
the set of `end`-typed events is unchanged, so no end-of-turn event is
produced for the failed turn. -/
theorem failure_appends_no_end_event (cm : ChatManager) (c text : String)
    (g : GraphRun) (e : String) (hconn : cm.active_connections c = true)
    (hg : g false = Except.error e) :
    (cm.process_message c text g).exc = some e ∧
    (cm.process_message c text g).state.chat_history c
        = cm.chat_history c ++ [userChatMessage text, startResponse] ∧
    ((cm.process_message c text g).state.chat_history c).filter
        (fun m => m.type = "end")
      = (cm.chat_history c).filter (fun m => m.type = "end") := by
  rw [process_message_errGraph cm c text g e hconn hg]
  refine ⟨rfl, by simp [ProcResult.state], ?_⟩
  simp [ProcResult.state, List.filter_append, userChatMessage, startResponse]

/-- Witness for C2's amended statement on a concrete failing turn. -/
theorem failure_appends_no_end_event_witness :
    ((ChatManager.init.connect "A").process_message "A" "hi"
        (fun _ => Except.error "boom")).exc = some "boom" ∧
    ((ChatManager.init.connect "A").process_message "A" "hi"
        (fun _ => Except.error "boom")).state.chat_history "A"
        = (ChatManager.init.connect "A").chat_history "A"
            ++ [userChatMessage "hi", startResponse] ∧
    (((ChatManager.init.connect "A").process_message "A" "hi"
        (fun _ => Except.error "boom")).state.chat_history "A").filter
        (fun m => m.type = "end")
      = ((ChatManager.init.connect "A").chat_history "A").filter
          (fun m => m.type = "end") :=
  failure_appends_no_end_event (ChatManager.init.connect "A") "A" "hi"
    (fun _ => Except.error "boom") "boom" (by decide) rfl

/-- C8: a successful turn appends a FinalAnswer event as the last history
entry, carrying the result text (empty when falsy) and the trimmed
intermediate steps (empty when falsy). -/
theorem success_final_answer_fields (cm : ChatManager) (c text : String)
    (result intermediate_steps : Option String)
    (hconn : cm.active_connections c = true) :
    (cm.process_message c text
        (fun _ => Except.ok (result, intermediate_steps))).exc = none ∧
    (cm.process_message c text
        (fun _ => Except.ok (result, intermediate_steps))).state.chat_history c
        = cm.chat_history c ++ turnBlock text result intermediate_steps ∧
    ((cm.process_message c text
        (fun _ => Except.ok (result, intermediate_steps))).state.chat_history c).getLast?
        = some (endResponse result intermediate_steps) ∧
    (endResponse result intermediate_steps).message = some (orEmpty result) ∧
    (endResponse result intermediate_steps).intermediate_steps
        = (orEmpty intermediate_steps).trim := by
  rw [process_message_okGraph cm c text result intermediate_steps hconn]
  refine ⟨rfl, by simp [ProcResult.state], ?_, rfl, rfl⟩
  simp [ProcResult.state, turnBlock]

/-- Witness for C8 on a concrete successful turn, including falsy results:
the collaborator returns no result and whitespace-padded steps. -/
theorem success_final_answer_fields_witness :
    ((ChatManager.init.connect "A").process_message "A" "hi"
        (fun _ => Except.ok (none, some " thought "))).exc = none ∧
    ((ChatManager.init.connect "A").process_message "A" "hi"
        (fun _ => Except.ok (none, some " thought "))).state.chat_history "A"
        = (ChatManager.init.connect "A").chat_history "A"
            ++ turnBlock "hi" none (some " thought ") ∧
    (((ChatManager.init.connect "A").process_message "A" "hi"
        (fun _ => Except.ok (none, some " thought "))).state.chat_history "A").getLast?
        = some (endResponse none (some " thought ")) ∧
    (endResponse none (some " thought ")).message = some (orEmpty none) ∧
    (endResponse none (some " thought ")).intermediate_steps
        = (orEmpty (some " thought ")).trim :=
  success_final_answer_fields (ChatManager.init.connect "A") "A" "hi"
    none (some " thought ") (by decide)

/-- C5: the websocket handler replays the full filtered history exactly at
connect time, and a history-store notification dispatches at most one event —
whenever it sends, the payload is the single most recent event of the target
session's history and the target is that session's own connection. -/
theorem connect_replays_then_single_events :
    (∀ (cm : ChatManager) (c : String) (reqs : List Request),
        (cm.handle_websocket c reqs).sent_at_connect
          = cm.chat_history.get_history c true) ∧
    (∀ (cm : ChatManager) (cid d : String) (m : ChatMessage),
        cm.on_chat_history_update cid = Except.ok (some (d, m)) →
          d = cid ∧ (cm.chat_history.get_history cid false).getLast? = some m) := by
  constructor
  · intro cm c reqs
    rfl
  · intro cm cid d m h
    unfold ChatManager.on_chat_history_update at h
    by_cases hc : cm.active_connections cid = true
    · rw [if_pos hc] at h
      cases hl : (cm.chat_history.get_history cid false).getLast? with
      | none => rw [hl] at h; simp at h
      | some r =>
        rw [hl] at h
        by_cases hb : r.is_bot = true
        · simp [hb] at h
          exact ⟨h.1.symm, congrArg some h.2⟩
        · simp [hb] at h
    · simp [hc] at h

/-- Witness for C5: after an artifact append to a connected session, the
notification dispatches exactly the appended (most recent) event. -/
theorem connect_replays_then_single_events_witness :
    ("A" : String) = "A" ∧
      (((ChatManager.init.connect "A").update "A").chat_history.get_history
          "A" false).getLast? = some fileResponse :=
  connect_replays_then_single_events.2 ((ChatManager.init.connect "A").update "A")
    "A" "A" fileResponse rfl

/-- C9: every event the history-notification path sends has its
bot-originated flag set, and the UserMessage just appended by the driver is
never echoed back: notifying right after that append dispatches nothing. -/
theorem history_dispatch_is_bot_only :
    (∀ (cm : ChatManager) (cid d : String) (m : ChatMessage),
        cm.on_chat_history_update cid = Except.ok (some (d, m)) →
          m.is_bot = true) ∧
    (∀ (cm : ChatManager) (cid text : String),
        cm.active_connections cid = true →
        ChatManager.on_chat_history_update
          { cm with chat_history :=
              cm.chat_history.add_message cid (userChatMessage text) } cid
          = Except.ok none) := by
  constructor
  · intro cm cid d m h
    unfold ChatManager.on_chat_history_update at h
    by_cases hc : cm.active_connections cid = true
    · rw [if_pos hc] at h
      cases hl : (cm.chat_history.get_history cid false).getLast? with
      | none => rw [hl] at h; simp at h
      | some r =>
        rw [hl] at h
        by_cases hb : r.is_bot = true
        · simp [hb] at h
          rw [← h.2]
          exact hb
        · simp [hb] at h
    · simp [hc] at h
  · intro cm cid text hconn
    simp [ChatManager.on_chat_history_update, ChatHistory.get_history,
      add_message_apply_same, List.getLast?_concat, userChatMessage, hconn]

/-- Witness for C9: a turn's UserMessage append on a connected session
produces no dispatch. -/
theorem history_dispatch_is_bot_only_witness :
    ChatManager.on_chat_history_update
      { ChatManager.init.connect "A" with chat_history :=
          ((ChatManager.init.connect "A").chat_history.add_message "A"
            (userChatMessage "hi")) } "A"
      = Except.ok none :=
  history_dispatch_is_bot_only.2 (ChatManager.init.connect "A") "A" "hi" (by decide)

/-- C10: a history notification targets the session named by the
active-session context, not the session whose history was appended to
(an append to a different session leaves the dispatch unchanged); the
dispatched event is the last element of the active session's own history,
an access that errors (`IndexError`) exactly when that history is empty
while the session is connected. -/
theorem notification_reads_active_session (cm : ChatManager) (a c : String)
    (m : ChatMessage) (hconn : cm.active_connections c = true) (hne : a ≠ c) :
    ChatManager.on_chat_history_update
        { cm with chat_history := cm.chat_history.add_message a m } c
      = cm.on_chat_history_update c ∧
    (cm.chat_history c = [] →
      cm.on_chat_history_update c = Except.error "IndexError") ∧
    (cm.chat_history c ≠ [] →
      ∃ last, (cm.chat_history c).getLast? = some last ∧
        cm.on_chat_history_update c
          = Except.ok (if last.is_bot then some (c, last) else none)) := by
  refine ⟨?_, ?_, ?_⟩
  · have hsame : cm.chat_history.add_message a m c = cm.chat_history c :=
      add_message_apply_ne cm.chat_history a c m (Ne.symm hne)
    simp [ChatManager.on_chat_history_update, ChatHistory.get_history, hsame]
  · intro h0
    simp [ChatManager.on_chat_history_update, ChatHistory.get_history, h0, hconn]
  · intro hne'
    obtain ⟨last, hlast⟩ :=
      Option.isSome_iff_exists.mp (List.getLast?_isSome.mpr hne')
    refine ⟨last, hlast, ?_⟩
    simp only [ChatManager.on_chat_history_update, ChatHistory.get_history,
      if_false, hconn, if_true, hlast]
    by_cases hb : last.is_bot = true <;> simp [hb, hlast]

/-- Witness for C10: with session "A" connected, active and holding one
event, appending to a different session "B" leaves the notification
dispatch for "A" unchanged. -/
theorem notification_reads_active_session_witness :
    ChatManager.on_chat_history_update
        { (ChatManager.init.connect "A").update "A" with chat_history :=
            (((ChatManager.init.connect "A").update "A").chat_history.add_message
              "B" (userChatMessage "x")) } "A"
      = ((ChatManager.init.connect "A").update "A").on_chat_history_update "A" :=
  (notification_reads_active_session ((ChatManager.init.connect "A").update "A")
    "B" "A" (userChatMessage "x") (by decide) (by decide)).1

/-- Each successful turn contributes exactly three events. -/
lemma flatten_blocks_length (reqs : List OkRequest) :
    ((reqs.map OkRequest.block).flatten).length = 3 * reqs.length := by
  induction reqs with
  | nil => rfl
  | cons r rest ih =>
    simp only [List.map_cons, List.flatten_cons, List.length_append, ih,
      List.length_cons, OkRequest.block, turnBlock, List.length_nil]
    omega

/-- Position `3 * k + j` of the flattened turn blocks reads position `j`
of the `k`-th request's own block. -/
lemma flatten_blocks_get (reqs : List OkRequest) (j : Nat) (hj : j < 3) :
    ∀ k, ((reqs.map OkRequest.block).flatten)[3 * k + j]?
      = (reqs[k]?).bind (fun r => (r.block)[j]?) := by
  induction reqs with
  | nil => intro k; simp
  | cons r rest ih =>
    intro k
    cases k with
    | zero =>
      simp only [List.map_cons, List.flatten_cons, Nat.mul_zero, Nat.zero_add]
      rw [List.getElem?_append_left]
      · simp
      · simp only [OkRequest.block, turnBlock, List.length_cons, List.length_nil]
        omega
    | succ k =>
      simp only [List.map_cons, List.flatten_cons]
      rw [List.getElem?_append_right]
      · have harith : 3 * (k + 1) + j - (r.block).length = 3 * k + j := by
          simp only [OkRequest.block, turnBlock, List.length_cons, List.length_nil]
          omega
        rw [harith, ih k]
        simp
      · simp only [OkRequest.block, turnBlock, List.length_cons, List.length_nil]
        omega

/-- C4: starting from an empty session history, a run of N succeeding
requests yields exactly the N three-event turn blocks in order — length
`3 * N` (so at least `3 * N`), strictly increasing by three per turn, with
the k-th turn's UserMessage, StreamStart and FinalAnswer at positions
`3k`, `3k+1`, `3k+2`: every FinalAnswer is directly preceded by the single
StreamStart of its own request. -/
theorem successful_turns_history_shape (cm : ChatManager) (c : String)
    (reqs : List OkRequest) (hconn : cm.active_connections c = true)
    (hempty : cm.chat_history c = []) :
    ((processLoop cm c (reqs.map OkRequest.toRequest)).1.chat_history c
        = (reqs.map OkRequest.block).flatten) ∧
    (((processLoop cm c (reqs.map OkRequest.toRequest)).1.chat_history c).length
        = 3 * reqs.length) ∧
    (∀ i, i < reqs.length →
      ((processLoop cm c ((reqs.take (i+1)).map OkRequest.toRequest)).1.chat_history c).length
        = ((processLoop cm c ((reqs.take i).map OkRequest.toRequest)).1.chat_history c).length
            + 3) ∧
    (∀ k, k < reqs.length →
      ∃ r, reqs[k]? = some r ∧
        ((processLoop cm c (reqs.map OkRequest.toRequest)).1.chat_history c)[3 * k]?
            = some (userChatMessage r.message_text) ∧
        ((processLoop cm c (reqs.map OkRequest.toRequest)).1.chat_history c)[3 * k + 1]?
            = some startResponse ∧
        ((processLoop cm c (reqs.map OkRequest.toRequest)).1.chat_history c)[3 * k + 2]?
            = some (endResponse r.result r.intermediate_steps)) := by
  have hshape := (processLoop_okRequests c reqs cm hconn).1
  rw [hempty, List.nil_append] at hshape
  refine ⟨hshape, by rw [hshape, flatten_blocks_length], ?_, ?_⟩
  · intro i hi
    have h1 := (processLoop_okRequests c (reqs.take (i+1)) cm hconn).1
    have h2 := (processLoop_okRequests c (reqs.take i) cm hconn).1
    rw [hempty, List.nil_append] at h1 h2
    rw [h1, h2, flatten_blocks_length, flatten_blocks_length,
      List.length_take, List.length_take]
    omega
  · intro k hk
    refine ⟨reqs.get ⟨k, hk⟩, ?_, ?_, ?_, ?_⟩
    · simp [List.getElem?_eq_getElem hk]
    · have hg := flatten_blocks_get reqs 0 (by omega) k
      rw [Nat.add_zero] at hg
      rw [hshape, hg, List.getElem?_eq_getElem hk]
      simp [OkRequest.block, turnBlock]
    · have hg := flatten_blocks_get reqs 1 (by omega) k
      rw [hshape, hg, List.getElem?_eq_getElem hk]
      simp [OkRequest.block, turnBlock]
    · have hg := flatten_blocks_get reqs 2 (by omega) k
      rw [hshape, hg, List.getElem?_eq_getElem hk]
      simp [OkRequest.block, turnBlock]

/-- Witness for C4 on two concrete successful turns of a fresh session. -/
theorem successful_turns_history_shape_witness :
    ((processLoop (ChatManager.init.connect "A") "A"
        ([⟨"hi", some "a1", some " s1 "⟩, ⟨"again", none, none⟩].map
          OkRequest.toRequest)).1.chat_history "A"
      = (([⟨"hi", some "a1", some " s1 "⟩, ⟨"again", none, none⟩] :
          List OkRequest).map OkRequest.block).flatten) ∧
    (((processLoop (ChatManager.init.connect "A") "A"
        ([⟨"hi", some "a1", some " s1 "⟩, ⟨"again", none, none⟩].map
          OkRequest.toRequest)).1.chat_history "A").length = 3 * 2) :=
  have h := successful_turns_history_shape (ChatManager.init.connect "A") "A"
    [⟨"hi", some "a1", some " s1 "⟩, ⟨"again", none, none⟩] (by decide) rfl
  ⟨h.1, h.2.1⟩

end Langflow
